import Mathlib

/-!
Verification of the agent-network event ingestion pipeline.

This file gives a shallow embedding, in Lean 4, of the parts of the
agent-network repository that the specification claims talk about:

* `src/agent_network/webhook/signature.py` — HMAC-SHA256 signature check;
* `src/agent_network/webhook/consumer.py` — the webhook receiver endpoint;
* `src/agent_network/webhook/registry.py` — the login / cleanup / register flow;
* `src/agent_network/messaging/publisher.py` — the RabbitMQ publisher;
* `src/agent_network/messaging/worker.py` — the broker consumer and its
  shared `process_message` core.

Python byte strings are modelled as `List Nat` (each element a byte value),
machine words as `Nat` reduced modulo `2 ^ 32` where the algorithm requires it,
raised exceptions as `Except`, and external collaborators (the JSON parser of
the standard library, the AMQP client, the Light-Tasks HTTP client and the
worker agent) as explicit function parameters whose results say whether the
call returned or raised.
-/

namespace AgentNetwork

/-! ## JSON values

Python `dict` payloads are modelled by an inductive JSON type.  Objects are
association lists; Python dictionaries have unique keys, and every lookup in
the source uses `dict.get`, which the first-match lookup below reproduces. -/

inductive Json where
  | null : Json
  | bool : Bool → Json
  | num : Int → Json
  | str : String → Json
  | arr : List Json → Json
  | obj : List (String × Json) → Json

/-- Fields of a top-level JSON object (a Python `dict`). -/
abbrev JsonObj := List (String × Json)

/-- Lookup modelling Python `dict.get(k)` (returns `None` when absent). -/
def jget (o : JsonObj) (k : String) : Option Json :=
  match o with
  | [] => none
  | (k₀, v) :: rest => if k₀ == k then some v else jget rest k

/-- Lookup modelling Python `dict.get(k, d)` with an explicit default. -/
def jgetD (o : JsonObj) (k : String) (d : Json) : Json :=
  (jget o k).getD d

/-- Python equality test `j == s` between an arbitrary value and a string:
true exactly when `j` is that string (values of other types never compare
equal to a `str`). -/
def Json.isStr (j : Json) (s : String) : Bool :=
  match j with
  | Json.str t => t == s
  | _ => false

/-- Whether a JSON value is an object (a Python `dict`). -/
def Json.isObj (j : Json) : Bool :=
  match j with
  | Json.obj _ => true
  | _ => false

/-- Lookup `dict.get(k)` on a JSON value known to be an object. -/
def Json.get? (j : Json) (k : String) : Option Json :=
  match j with
  | Json.obj o => jget o k
  | _ => none

/-- Python truthiness of a JSON value: `None`, `False`, `0`, `""`, `[]` and
`{}` are falsy, everything else is truthy. -/
def jsonTruthy (j : Json) : Bool :=
  match j with
  | Json.null => false
  | Json.bool b => b
  | Json.num n => !(n == 0)
  | Json.str s => !(s == "")
  | Json.arr xs => !xs.isEmpty
  | Json.obj o => !o.isEmpty

/-- Python truthiness of an optional JSON value (`dict.get` result):
`None` is falsy. -/
def truthyO (j : Option Json) : Bool :=
  match j with
  | none => false
  | some v => jsonTruthy v

/-! ## SHA-256 (`hashlib.sha256`)

A byte-level implementation of FIPS 180-4 SHA-256, the hash the verifier in
`signature.py` obtains from `hashlib`.  Words are `Nat` values kept below
`2 ^ 32` by explicit reduction. -/

/-- Right rotation of a 32-bit word. -/
def rotr32 (n x : Nat) : Nat :=
  ((x >>> n) ||| (x <<< (32 - n))) % 4294967296

/-- Bitwise complement within 32 bits. -/
def not32 (x : Nat) : Nat := 4294967295 ^^^ x

/-- The SHA-256 round constants (fractional parts of cube roots of the first
64 primes). -/
def K256 : List Nat :=
  [1116352408, 1899447441, 3049323471, 3921009573, 961987163,
   1508970993, 2453635748, 2870763221, 3624381080, 310598401,
   607225278, 1426881987, 1925078388, 2162078206, 2614888103,
   3248222580, 3835390401, 4022224774, 264347078, 604807628,
   770255983, 1249150122, 1555081692, 1996064986, 2554220882,
   2821834349, 2952996808, 3210313671, 3336571891, 3584528711,
   113926993, 338241895, 666307205, 773529912, 1294757372,
   1396182291, 1695183700, 1986661051, 2177026350, 2456956037,
   2730485921, 2820302411, 3259730800, 3345764771, 3516065817,
   3600352804, 4094571909, 275423344, 430227734, 506948616,
   659060556, 883997877, 958139571, 1322822218, 1537002063,
   1747873779, 1955562222, 2024104815, 2227730452, 2361852424,
   2428436474, 2756734187, 3204031479, 3329325298]

/-- The SHA-256 initial hash state. -/
def H256 : List Nat :=
  [1779033703, 3144134277, 1013904242, 2773480762,
   1359893119, 2600822924, 528734635, 1541459225]

/-- Big-endian 8-byte encoding of a length in bits. -/
def lenBytes64 (n : Nat) : List Nat :=
  [(n >>> 56) % 256, (n >>> 48) % 256, (n >>> 40) % 256, (n >>> 32) % 256,
   (n >>> 24) % 256, (n >>> 16) % 256, (n >>> 8) % 256, n % 256]

/-- SHA-256 message padding: append `0x80`, zero bytes up to 56 mod 64, and
the 64-bit big-endian bit length. -/
def padMsg (msg : List Nat) : List Nat :=
  let l := msg.length
  msg ++ [0x80] ++ List.replicate ((119 - l % 64) % 64) 0 ++ lenBytes64 (8 * l)

/-- Group bytes into big-endian 32-bit words. -/
def bytesToWords : List Nat → List Nat
  | b0 :: b1 :: b2 :: b3 :: rest =>
      ((b0 <<< 24) ||| (b1 <<< 16) ||| (b2 <<< 8) ||| b3) :: bytesToWords rest
  | _ => []

/-- Split a byte list into 64-byte blocks. -/
def chunks64 : List Nat → List (List Nat)
  | [] => []
  | x :: xs => ((x :: xs).take 64) :: chunks64 (xs.drop 63)
termination_by l => l.length
decreasing_by
  simp only [List.length_drop, List.length_cons]
  omega

/-- The σ₀ message-schedule function. -/
def smallSigma0 (x : Nat) : Nat := (rotr32 7 x) ^^^ (rotr32 18 x) ^^^ (x >>> 3)

/-- The σ₁ message-schedule function. -/
def smallSigma1 (x : Nat) : Nat := (rotr32 17 x) ^^^ (rotr32 19 x) ^^^ (x >>> 10)

/-- Extend the 16-word message schedule by `n` further words. -/
def extendW : Nat → List Nat → List Nat
  | 0, ws => ws
  | n + 1, ws =>
      let i := ws.length
      extendW n (ws ++
        [(smallSigma1 (ws.getD (i - 2) 0) + ws.getD (i - 7) 0 +
          smallSigma0 (ws.getD (i - 15) 0) + ws.getD (i - 16) 0) % 4294967296])

/-- One SHA-256 compression round on the 8-word working state. -/
def roundStep (k w : Nat) (st : List Nat) : List Nat :=
  match st with
  | [a, b, c, d, e, f, g, h] =>
      let s1 := (rotr32 6 e) ^^^ (rotr32 11 e) ^^^ (rotr32 25 e)
      let ch := (e &&& f) ^^^ ((not32 e) &&& g)
      let temp1 := (h + s1 + ch + k + w) % 4294967296
      let s0 := (rotr32 2 a) ^^^ (rotr32 13 a) ^^^ (rotr32 22 a)
      let maj := (a &&& b) ^^^ (a &&& c) ^^^ (b &&& c)
      let temp2 := (s0 + maj) % 4294967296
      [(temp1 + temp2) % 4294967296, a, b, c, (d + temp1) % 4294967296, e, f, g]
  | _ => st

/-- Compress one 64-byte block into the running hash state. -/
def compressBlock (hs block : List Nat) : List Nat :=
  let ws := extendW 48 (bytesToWords block)
  let st := (List.zip K256 ws).foldl (fun s kw => roundStep kw.1 kw.2 s) hs
  (List.zip hs st).map (fun p => (p.1 + p.2) % 4294967296)

/-- SHA-256 of a byte string, as 32 output bytes. -/
def sha256 (msg : List Nat) : List Nat :=
  let hs := (chunks64 (padMsg msg)).foldl compressBlock H256
  hs.flatMap (fun w => [(w >>> 24) % 256, (w >>> 16) % 256, (w >>> 8) % 256, w % 256])

/-! ## HMAC-SHA256 (the `hmac` module, RFC 2104)

`hmac.new(key, msg, hashlib.sha256)`: a key longer than the 64-byte block is
first hashed, then the key is zero-padded to 64 bytes; the digest is
`H((k ⊕ opad) ‖ H((k ⊕ ipad) ‖ msg))`. -/

/-- Key preprocessing of the `hmac` module: hash keys longer than the block
size, then zero-pad to the 64-byte block size. -/
def hmacPadKey (key : List Nat) : List Nat :=
  let k := if key.length > 64 then sha256 key else key
  k ++ List.replicate (64 - k.length) 0

/-- HMAC-SHA256 of a message under a key, as 32 output bytes. -/
def hmacSha256 (key msg : List Nat) : List Nat :=
  sha256 (((hmacPadKey key).map (fun b => b ^^^ 0x5c)) ++
    sha256 (((hmacPadKey key).map (fun b => b ^^^ 0x36)) ++ msg))

/-! ## signature.py -/

/-- Lower-case hex digit. -/
def hexChar (n : Nat) : Char :=
  if n < 10 then Char.ofNat (48 + n) else Char.ofNat (87 + n)

/-- Lower-case hex encoding of a byte string (the `hexdigest` method). -/
def hexdigest (bs : List Nat) : String :=
  String.mk (bs.flatMap (fun b => [hexChar (b / 16), hexChar (b % 16)]))

/-- UTF-8 encoding of a single character, as Python `str.encode` produces. -/
def utf8Char (c : Char) : List Nat :=
  let n := c.toNat
  if n < 0x80 then [n]
  else if n < 0x800 then
    [0xc0 ||| (n >>> 6), 0x80 ||| (n &&& 0x3f)]
  else if n < 0x10000 then
    [0xe0 ||| (n >>> 12), 0x80 ||| ((n >>> 6) &&& 0x3f), 0x80 ||| (n &&& 0x3f)]
  else
    [0xf0 ||| (n >>> 18), 0x80 ||| ((n >>> 12) &&& 0x3f),
     0x80 ||| ((n >>> 6) &&& 0x3f), 0x80 ||| (n &&& 0x3f)]

/-- Python `secret.encode("utf-8")`. -/
def strEncode (s : String) : List Nat :=
  s.data.flatMap utf8Char

/-- Python `hmac.compare_digest` on two strings: a timing-safe comparison
whose boolean result is equality. -/
def compare_digest (a b : String) : Bool := a == b

/-- Embedding of `verify_signature` from `webhook/signature.py`: compute the
HMAC-SHA256 hex digest of the raw payload under the UTF-8 encoded secret,
prefix `sha256=`, and compare with the received header value. -/
def verify_signature (payload : List Nat) (secret : String)
    (received_signature : String) : Bool :=
  compare_digest ("sha256=" ++ hexdigest (hmacSha256 (strEncode secret) payload))
    received_signature

/-- The well-formed signature string for a payload under a secret, exactly as
the sender (and the verifier internally) computes it:
`"sha256=" + hex(HMAC-SHA256(secret, payload))`. -/
def signSignature (payload : List Nat) (secret : String) : String :=
  "sha256=" ++ hexdigest (hmacSha256 (strEncode secret) payload)

/-- A correctly signed payload always verifies. -/
theorem verify_sign_self (payload : List Nat) (secret : String) :
    verify_signature payload secret (signSignature payload secret) = true := by
  simp [verify_signature, signSignature, compare_digest]

/-- Characterization of the verifier: it accepts exactly the well-formed
signature string computed with its own secret. -/
theorem verify_eq_true_iff (payload : List Nat) (secret sig : String) :
    verify_signature payload secret sig = true ↔ sig = signSignature payload secret := by
  constructor
  · intro h
    have := (beq_iff_eq).mp h
    exact this.symm
  · intro h
    subst h
    exact verify_sign_self payload secret

/-! ## consumer.py — the webhook receiver

`create_consumer_app` builds a FastAPI app whose `POST /webhook` handler is
`receive_webhook`.  The handler is embedded as a pure function of the app
configuration (`secret`, `publisher`), the JSON parser (`json.loads`, an
external library call, passed as a function returning `none` when it raises
`JSONDecodeError`), and the request.  The publisher attached to the app is
characterized by its observable behavior: for a routing key and body, its
`publish` coroutine either returns or raises, the raised value modelled as a
`String`. -/

/-- The `_TASK_EVENTS` frozenset of `webhook/consumer.py`. -/
def taskEvents : List String :=
  ["task.created", "task.updated", "task.deleted", "task.moved",
   "task.commented", "task.feedback_added"]

/-- An inbound `POST /webhook` request: raw body bytes and the two optional
headers. -/
structure WebhookRequest where
  rawBody : List Nat
  xSignature : Option String
  xEvent : Option String

/-- Observable outcome of the `receive_webhook` handler: the returned
response dictionary, a raised `HTTPException` with status code and detail, or
an exception that escaped the handler uncaught. -/
inductive WebhookOutcome where
  | ok : List (String × String) → WebhookOutcome
  | httpError : Nat → String → WebhookOutcome
  | exn : String → WebhookOutcome

/-- A message handed to the publisher: routing key and the body dictionary. -/
structure PublishCall where
  routingKey : String
  body : JsonObj

/-- Python truthiness of the optional secret string (`if wh_secret:`). -/
def strTruthy (s : Option String) : Bool :=
  match s with
  | none => false
  | some t => !(t == "")

/-- Python `x_webhook_event or "unknown"`: the header when it is a non-empty
string, otherwise the sentinel. -/
def headerOr (h : Option String) : String :=
  match h with
  | none => "unknown"
  | some e => if e == "" then "unknown" else e

/-- The signature-verification gate at the top of `receive_webhook`: when the
stored secret is truthy, a missing header or a failed verification yields the
401 response; otherwise the gate lets the request through. -/
def authCheck (secret : Option String) (xSig : Option String)
    (raw : List Nat) : Option (Nat × String) :=
  match secret with
  | none => none
  | some s =>
      if s == "" then none
      else
        match xSig with
        | none => some (401, "Missing signature header")
        | some sig =>
            if verify_signature raw s sig then none
            else some (401, "Invalid signature")

/-- Embedding of the `receive_webhook` handler of `webhook/consumer.py`.
Returns the handler outcome together with the messages successfully handed to
the broker.  `parseJson` models `json.loads` on the raw body, returning the
parsed dictionary or `none` when parsing raises.  Steps, as in the source:
signature gate, JSON parse (400 on failure), event extraction with the header
fallback, then forwarding of the full payload when a publisher is attached
and the event is in the routable set.  The `publish` call is not wrapped in
any exception handler in the source, so a raising publisher makes the
exception escape the handler. -/
def receive_webhook (secret : Option String)
    (publisher : Option (String → JsonObj → Except String Unit))
    (parseJson : List Nat → Option JsonObj)
    (req : WebhookRequest) : WebhookOutcome × List PublishCall :=
  match authCheck secret req.xSignature req.rawBody with
  | some sd => (WebhookOutcome.httpError sd.1 sd.2, [])
  | none =>
      match parseJson req.rawBody with
      | none => (WebhookOutcome.httpError 400 "Invalid JSON body", [])
      | some payload =>
          let event : Json := jgetD payload "event" (Json.str (headerOr req.xEvent))
          match publisher, event with
          | some pub, Json.str s =>
              if taskEvents.contains s then
                match pub s payload with
                | Except.ok _ =>
                    (WebhookOutcome.ok [("status", "received")], [⟨s, payload⟩])
                | Except.error e => (WebhookOutcome.exn e, [])
              else (WebhookOutcome.ok [("status", "received")], [])
          | _, _ => (WebhookOutcome.ok [("status", "received")], [])

/-! ## publisher.py — RabbitPublisher -/

/-- Error raised by `RabbitPublisher.publish`. -/
inductive PubError where
  | runtimeError : String → PubError

/-- A message sent to the exchange by a successful `publish`: exchange name,
routing key, body dictionary, persistence flag and content type. -/
structure PublishedMessage where
  exchange : String
  routingKey : String
  body : JsonObj
  persistent : Bool
  contentType : String

/-- Embedding of `RabbitPublisher.publish`: the `_exchange` attribute is
`none` until `connect()` has completed; `publish` raises `RuntimeError`
when it is unset, and otherwise sends one persistent JSON message to the
exchange under the given routing key. -/
def RabbitPublisher.publish (exchange : Option String) (routing_key : String)
    (body : JsonObj) : Except PubError PublishedMessage :=
  match exchange with
  | none =>
      Except.error (PubError.runtimeError
        "Publisher is not connected — call connect() first")
  | some ex =>
      Except.ok ⟨ex, routing_key, body, true, "application/json"⟩

/-! ## worker.py — the broker consumer

`process_message` is the shared core.  Its collaborators are passed as
functions: `ewa` is `execute_worker_agent` (the Processing Function, an
external collaborator that returns a work product or raises), `addComment`
and `markDone` are the two Light-Tasks service calls made afterwards.  All
observable effects are collected in a `WorkerEffects` record; only warning
and error level log lines are recorded, since those are the ones the
specification talks about. -/

/-- Observable effects of one `process_message` run: arguments of every
`execute_worker_agent` invocation, every `add_comment` and `mark_task_done`
call attempted, and the warning and error log lines emitted. -/
structure WorkerEffects where
  ewaCalls : List Json
  comments : List (Json × String)
  marked : List Json
  warnLogs : List String
  errorLogs : List String

/-- The empty effect record: nothing invoked, nothing logged. -/
def WorkerEffects.empty : WorkerEffects := ⟨[], [], [], [], []⟩

/-- The Light-Tasks service facade as `process_message` uses it: the two
methods it calls, each returning or raising. -/
structure LightTasksService where
  add_comment : Json → String → Except String Unit
  mark_task_done : Json → Except String Unit

/-- Embedding of `LightTasksService.from_settings` from `api/service.py`:
with a falsy `agent_api_key` (the default in `config.py` is the empty
string) the factory raises `RuntimeError` before building a client;
otherwise it returns the facade over the configured client, whose method
behavior is the `client` parameter. -/
def LightTasksService.from_settings (agent_api_key : String)
    (client : LightTasksService) : Except String LightTasksService :=
  if agent_api_key == "" then
    Except.error ("AGENT_API_KEY is not set. Create an agent user in " ++
      "Light-Tasks and put the returned API key in the .env file.")
  else
    Except.ok client

/-- Whether an `Except`-modelled call returned rather than raised. -/
def exceptOk {ε α : Type} (e : Except ε α) : Bool :=
  match e with
  | Except.ok _ => true
  | Except.error _ => false

/-- Embedding of `process_message` from `messaging/worker.py`.  The event is
an arbitrary decoded JSON value; the source compares it with the string
`"task.created"` and returns for everything else.  The task id is
`data.get("id") or data.get("task_id")` under Python truthiness, and a falsy
result is a warning-and-return.  `getService` is the behavior of the
`_get_service()` singleton accessor at this invocation — the service it
returns, or the exception its construction raises (notably the
`RuntimeError` of `from_settings` on an empty `agent_api_key`); that call
sits between the id guard and the `try` block, so its exception escapes
`process_message` as the `Except.error` result.  The `try` block invokes the
Processing Function on `data.get("description", "")`, then the two service
calls; any exception from those is caught and logged by the bare
`except`. -/
def process_message (getService : Except String LightTasksService)
    (ewa : Json → Except String String)
    (event : Json) (data : JsonObj) : Except String WorkerEffects :=
  if event.isStr "task.created" then
    let t1 := jget data "id"
    let taskIdO := if truthyO t1 then t1 else jget data "task_id"
    match taskIdO, truthyO taskIdO with
    | some tid, true =>
        match getService with
        | Except.error e => Except.error e
        | Except.ok service =>
            let desc := jgetD data "description" (Json.str "")
            match ewa desc with
            | Except.error _ =>
                Except.ok ⟨[desc], [], [], [], ["Failed to mark task %s as done"]⟩
            | Except.ok task =>
                match service.add_comment tid task with
                | Except.error _ =>
                    Except.ok ⟨[desc], [(tid, task)], [], [],
                      ["Failed to mark task %s as done"]⟩
                | Except.ok _ =>
                    match service.mark_task_done tid with
                    | Except.error _ =>
                        Except.ok ⟨[desc], [(tid, task)], [tid], [],
                          ["Failed to mark task %s as done"]⟩
                    | Except.ok _ =>
                        Except.ok ⟨[desc], [(tid, task)], [tid], [], []⟩
    | _, _ =>
        Except.ok ⟨[], [], [], ["No task id found in payload — skipping"], []⟩
  else
    Except.ok WorkerEffects.empty

/-- Embedding of `parse_payload` from `messaging/worker.py`: decode the raw
string through `json.loads` (the `loads` parameter, `none` when the library
call raises) and extract `(event, data)` with the source defaults.  The
`data` field of a well-formed broker message is an object; the fields of
that object are returned. -/
def parse_payload (loads : String → Option JsonObj) (raw : String) :
    Option (Json × JsonObj) :=
  match loads raw with
  | none => none
  | some body =>
      some (jgetD body "event" (Json.str "unknown"),
        match jgetD body "data" (Json.obj []) with
        | Json.obj o => o
        | _ => [])

/-- Outcome of the `_on_message` callback for one delivery: whether the
message left the `message.process()` scope acknowledged or rejected with
requeue, the effects of the processing core, and the log lines emitted by
the callback itself. -/
structure ConsumeResult where
  acked : Bool
  requeued : Bool
  effects : WorkerEffects
  logs : List String

/-- Embedding of `_on_message` from `messaging/worker.py`.  `decodeBytes`
models `bytes.decode` (raising on invalid UTF-8) and `loads` models
`json.loads`.  Both failure modes are caught by the first `try` block, which
logs one error line and returns; the surrounding `message.process()` context
then acknowledges the message because the block exits normally.  A successful
parse runs `process_message`; an exception escaping it (a failed
`_get_service()`) is caught by the second `try` block and logged, so that
block also exits normally and the message is acknowledged either way. -/
def onMessage (decodeBytes : List Nat → Option String)
    (loads : String → Option JsonObj)
    (getService : Except String LightTasksService)
    (ewa : Json → Except String String)
    (raw : List Nat) : ConsumeResult :=
  match decodeBytes raw with
  | none =>
      ⟨true, false, WorkerEffects.empty,
       ["Worker received unparseable message — skipping"]⟩
  | some s =>
      match parse_payload loads s with
      | none =>
          ⟨true, false, WorkerEffects.empty,
           ["Worker received unparseable message — skipping"]⟩
      | some (event, data) =>
          match process_message getService ewa event data with
          | Except.ok eff => ⟨true, false, eff, []⟩
          | Except.error _ =>
              ⟨true, false, WorkerEffects.empty,
               ["Unhandled error while processing event %s"]⟩

/-- Processing Function invocations recorded by one `process_message` run;
an escaped exception means the invocation point was never reached. -/
def pmEwaLen (getService : Except String LightTasksService)
    (ewa : Json → Except String String)
    (event : Json) (data : JsonObj) : Nat :=
  match process_message getService ewa event data with
  | Except.ok eff => eff.ewaCalls.length
  | Except.error _ => 0

/-- Total number of Processing Function invocations over a sequence of
decoded `(event, data)` messages, each handled by `process_message`. -/
def ewaCount (getService : Except String LightTasksService)
    (ewa : Json → Except String String)
    (msgs : List (Json × JsonObj)) : Nat :=
  (msgs.map (fun m => pmEwaLen getService ewa m.1 m.2)).sum

/-- Whether a decoded message carries the `task.created` event. -/
def isCreated (m : Json × JsonObj) : Bool :=
  m.1.isStr "task.created"

/-- Whether a payload carries a truthy correlation id under the primary
`id` field or the fallback `task_id` field. -/
def hasTaskId (d : JsonObj) : Bool :=
  truthyO (jget d "id") || truthyO (jget d "task_id")

/-! ## registry.py — WebhookRegistry.signup

The Light-Tasks HTTP client is an external collaborator; its observable
behavior is a record of results, one per endpoint the registry uses, each an
`Except` that says whether the call (together with the response-field
accesses made on its result) returned a value or raised.  `signup` is
embedded as a function from that behavior to the returned secret (or the
propagated exception) plus the trace of API calls made, in order, and the
flag saying whether the cleanup step swallowed an exception with a warning. -/

/-- One API call made by the registry, in trace order. -/
inductive ApiCall where
  | login : ApiCall
  | listWebhooks : ApiCall
  | deleteWebhook : Json → ApiCall
  | register : ApiCall

/-- Observable behavior of the Light-Tasks client during one signup run:
the token from `POST /auth/login`, the webhook dictionaries in the `data`
field of `GET /webhooks`, the result of `DELETE /webhooks/{id}` per id, and
the `(secret, id)` pair from `POST /webhooks`.  An `Except.error` models the
call raising. -/
structure ApiBehavior where
  loginR : Except String String
  listR : Except String (List Json)
  deleteR : Json → Except String Unit
  registerR : Except String (String × String)

/-- The matching test of `_cleanup_old_webhooks`: the entry is a dictionary
whose `url` field compares equal to the configured callback URL (Python
`wh.get("url") == callback`; a missing field gives `None`, which never
equals a string). -/
def whMatches (cb : String) (wh : Json) : Bool :=
  match wh.get? "url" with
  | some u => u.isStr cb
  | none => false

/-- The deletion loop of `_cleanup_old_webhooks` over the listed webhook
entries.  Returns the delete calls attempted, in order, and whether an
exception stopped the loop: a non-dictionary entry raises on `wh.get`, a
matching entry without an `id` field raises `KeyError` on `wh["id"]`, and a
raising `DELETE` call stops the loop after the attempt.  All of these are
swallowed by the `except` clause of the caller. -/
def cleanupLoop (deleteR : Json → Except String Unit) (cb : String) :
    List Json → List ApiCall × Bool
  | [] => ([], false)
  | wh :: rest =>
      match wh with
      | Json.obj o =>
          if whMatches cb (Json.obj o) then
            match jget o "id" with
            | none => ([], true)
            | some idJ =>
                match deleteR idJ with
                | Except.error _ => ([ApiCall.deleteWebhook idJ], true)
                | Except.ok _ =>
                    let (calls, exn) := cleanupLoop deleteR cb rest
                    (ApiCall.deleteWebhook idJ :: calls, exn)
          else cleanupLoop deleteR cb rest
      | _ => ([], true)

/-- Embedding of `_cleanup_old_webhooks`: list the registrations, delete the
matching ones; any exception is caught and turned into a warning log,
reported here as the boolean flag. -/
def cleanup_old_webhooks (api : ApiBehavior) (cb : String) :
    List ApiCall × Bool :=
  match api.listR with
  | Except.error _ => ([ApiCall.listWebhooks], true)
  | Except.ok whs =>
      let (dels, exn) := cleanupLoop api.deleteR cb whs
      (ApiCall.listWebhooks :: dels, exn)

/-- Embedding of `WebhookRegistry.signup`: login, cleanup, register, in that
order.  A login exception propagates before anything else happens; the
cleanup step never raises (its flag records the swallowed exception); the
register step always runs after it, its exception propagates, and its secret
is the returned value. -/
def signup (api : ApiBehavior) (cb : String) :
    Except String String × List ApiCall × Bool :=
  match api.loginR with
  | Except.error e => (Except.error e, [ApiCall.login], false)
  | Except.ok _tok =>
      let (cc, warned) := cleanup_old_webhooks api cb
      match api.registerR with
      | Except.error e =>
          (Except.error e, ApiCall.login :: cc ++ [ApiCall.register], warned)
      | Except.ok si =>
          (Except.ok si.1, ApiCall.login :: cc ++ [ApiCall.register], warned)

/-! ## Shared helper definitions for concrete scenarios -/

/-- A Processing Function that always returns a work product. -/
def okE : Json → Except String String := fun _ => Except.ok "done"

/-- An `add_comment` service call that always returns. -/
def okC : Json → String → Except String Unit := fun _ _ => Except.ok ()

/-- A `mark_task_done` service call that always returns. -/
def okM : Json → Except String Unit := fun _ => Except.ok ()

/-- The scenario body of §8 Scenario A, as a parsed payload envelope. -/
def scenarioPayload : JsonObj :=
  [("event", Json.str "task.created"), ("data", Json.obj [("id", Json.str "t1")])]

/-! ## Claim theorems -/

/-- C3 (amended): verification accepts exactly the well-formed signature
string computed with the verifier's own secret.  Hence
`verify(P, S, sign(P, S))` is always true, and `verify(P, S, sign(P, S'))`
is false precisely when the two HMAC signature strings differ — secret
inequality alone does not guarantee rejection, because HMAC zero-pads
secrets shorter than its 64-byte block, so distinct secrets can yield the
same key. -/
theorem claim_C3 :
    (∀ (P : List Nat) (S : String),
      verify_signature P S (signSignature P S) = true)
  ∧ (∀ (P : List Nat) (S sig : String),
      verify_signature P S sig = true ↔ sig = signSignature P S) :=
  ⟨verify_sign_self, verify_eq_true_iff⟩

/-- C3 counterexample: the secrets `"a"` and `"a\x00"` are distinct, yet the
signature computed with `"a\x00"` verifies under `"a"`, because both encode
to HMAC keys that agree after zero-padding to the 64-byte block.  The claim
asserts this verification returns false. -/
theorem claim_C3_counterexample :
    ("a\x00" ≠ "a")
  ∧ verify_signature [] "a" (signSignature [] "a\x00") = true := by
  constructor
  · decide
  · have hkey : hmacPadKey (strEncode "a\x00") = hmacPadKey (strEncode "a") := by
      decide
    have hsig : signSignature [] "a\x00" = signSignature [] "a" := by
      unfold signSignature hmacSha256
      rw [hkey]
    rw [hsig]
    exact verify_sign_self [] "a"

/-- C9: calling `publish` while `_exchange` is still unset raises the
`RuntimeError` immediately and no message is produced; once the exchange is
set, the same call sends one persistent message under the given key. -/
theorem claim_C9 :
    (∀ (rk : String) (body : JsonObj),
      RabbitPublisher.publish none rk body =
        Except.error (PubError.runtimeError
          "Publisher is not connected — call connect() first"))
  ∧ (∀ (ex rk : String) (body : JsonObj),
      RabbitPublisher.publish (some ex) rk body =
        Except.ok ⟨ex, rk, body, true, "application/json"⟩) :=
  ⟨fun _ _ => rfl, fun _ _ _ => rfl⟩

/-- C8: a `task.created` payload with neither an `id` nor a `task_id` field
makes `process_message` log the warning and return normally (`Except.ok`):
no Processing Function invocation, no task-API call, no exception — for any
behavior of the service accessor, because the warning return sits before the
`_get_service()` call. -/
theorem claim_C8 (getService : Except String LightTasksService)
    (ewa : Json → Except String String) (d : JsonObj)
    (h1 : jget d "id" = none) (h2 : jget d "task_id" = none) :
    process_message getService ewa (Json.str "task.created") d =
      Except.ok ⟨[], [], [], ["No task id found in payload — skipping"], []⟩ := by
  simp [process_message, Json.isStr, h1, h2, truthyO]

/-- C8 witness: the empty payload, with a service accessor that would raise
(the default empty `agent_api_key`) — the warning return happens first. -/
theorem claim_C8_witness :
    process_message (LightTasksService.from_settings "" ⟨okC, okM⟩) okE
        (Json.str "task.created") [] =
      Except.ok ⟨[], [], [], ["No task id found in payload — skipping"], []⟩ :=
  claim_C8 (LightTasksService.from_settings "" ⟨okC, okM⟩) okE [] rfl rfl

/-- C6: a delivery whose body fails UTF-8 decoding or JSON parsing is
acknowledged and not requeued, the Processing Function is not invoked, the
handler emits exactly one log line, and no exception escapes (the embedding
of the handler is total). -/
theorem claim_C6 (decodeBytes : List Nat → Option String)
    (loads : String → Option JsonObj)
    (getService : Except String LightTasksService)
    (ewa : Json → Except String String) (raw : List Nat)
    (h : decodeBytes raw = none ∨
         ∃ s, decodeBytes raw = some s ∧ loads s = none) :
    onMessage decodeBytes loads getService ewa raw =
      ⟨true, false, WorkerEffects.empty,
       ["Worker received unparseable message — skipping"]⟩ := by
  rcases h with h | ⟨s, hs, hl⟩
  · simp [onMessage, h]
  · simp [onMessage, hs, parse_payload, hl]

/-- C6 witness: a body that is not valid JSON (`"not json"`, Scenario E). -/
theorem claim_C6_witness :
    onMessage (fun _ => some "not json") (fun _ => none)
        (Except.ok ⟨okC, okM⟩) okE [] =
      ⟨true, false, WorkerEffects.empty,
       ["Worker received unparseable message — skipping"]⟩ :=
  claim_C6 (fun _ => some "not json") (fun _ => none)
    (Except.ok ⟨okC, okM⟩) okE []
    (Or.inr ⟨"not json", rfl, rfl⟩)

/-- A 401 outcome of the handler can only come from the signature gate: the
branches after the gate produce the 400 response, the success response, or a
propagated publisher exception. -/
theorem receive_401_auth (secret : Option String)
    (pub : Option (String → JsonObj → Except String Unit))
    (parse : List Nat → Option JsonObj) (req : WebhookRequest) (d : String)
    (h : (receive_webhook secret pub parse req).1 = WebhookOutcome.httpError 401 d) :
    authCheck secret req.xSignature req.rawBody = some (401, d) := by
  unfold receive_webhook at h
  cases hac : authCheck secret req.xSignature req.rawBody with
  | some sd =>
      rw [hac] at h
      simp at h
      obtain ⟨h1, h2⟩ := h
      cases sd
      simp_all
  | none =>
      rw [hac] at h
      exfalso
      cases hp : parse req.rawBody with
      | none => rw [hp] at h; simp at h
      | some payload =>
          rw [hp] at h
          cases pub with
          | none => simp at h
          | some p =>
              cases hev : jgetD payload "event" (Json.str (headerOr req.xEvent)) with
              | str s =>
                  simp only [hev] at h
                  by_cases hc : taskEvents.contains s
                  · simp only [hc, if_true] at h
                    cases hpc : p s payload with
                    | ok u => rw [hpc] at h; simp at h
                    | error e => rw [hpc] at h; simp at h
                  · simp only [hc, if_false] at h
                    simp at h
              | null => simp only [hev] at h; simp at h
              | bool b => simp only [hev] at h; simp at h
              | num n => simp only [hev] at h; simp at h
              | arr xs => simp only [hev] at h; simp at h
              | obj o => simp only [hev] at h; simp at h

/-- C10: with an empty-string secret the handler behaves exactly as if no
secret were configured — the signature gate is skipped for every request —
and any 401 outcome requires the stored secret to be a non-empty string. -/
theorem claim_C10 :
    (∀ (pub : Option (String → JsonObj → Except String Unit))
       (parse : List Nat → Option JsonObj) (req : WebhookRequest),
        receive_webhook (some "") pub parse req =
          receive_webhook none pub parse req)
  ∧ (∀ (secret : Option String)
       (pub : Option (String → JsonObj → Except String Unit))
       (parse : List Nat → Option JsonObj) (req : WebhookRequest) (d : String),
        (receive_webhook secret pub parse req).1 = WebhookOutcome.httpError 401 d →
        ∃ s, secret = some s ∧ s ≠ "") := by
  constructor
  · intro pub parse req
    simp [receive_webhook, authCheck]
  · intro secret pub parse req d h
    have hac := receive_401_auth secret pub parse req d h
    cases secret with
    | none => simp [authCheck] at hac
    | some s =>
        refine ⟨s, rfl, ?_⟩
        intro hs
        subst hs
        simp [authCheck] at hac

/-- C10 witness: the empty-secret app processes an unsigned request like the
no-secret app, and a concrete 401 from a non-empty secret instantiates the
reachability direction. -/
theorem claim_C10_witness :
    (receive_webhook (some "") none (fun _ => none) ⟨[], none, none⟩ =
      receive_webhook none none (fun _ => none) ⟨[], none, none⟩)
  ∧ ∃ s, (some "k" : Option String) = some s ∧ s ≠ "" :=
  ⟨claim_C10.1 none (fun _ => none) ⟨[], none, none⟩,
   claim_C10.2 (some "k") none (fun _ => none) ⟨[], none, none⟩
     "Missing signature header" rfl⟩

/-- C5: Scenario A — a correctly signed `task.created` body with a publisher
attached yields the success response and exactly one published message whose
routing key is the event kind and whose body is the full payload envelope. -/
theorem claim_C5 (s : String) (p : String → JsonObj → Except String Unit)
    (parse : List Nat → Option JsonObj) (raw : List Nat) (xev : Option String)
    (hs : s ≠ "")
    (hparse : parse raw = some scenarioPayload)
    (hpub : p "task.created" scenarioPayload = Except.ok ()) :
    receive_webhook (some s) (some p) parse
        ⟨raw, some (signSignature raw s), xev⟩ =
      (WebhookOutcome.ok [("status", "received")],
       [⟨"task.created", scenarioPayload⟩]) := by
  have hbeq : (s == "") = false := by
    simpa using hs
  simp only [scenarioPayload] at hpub
  simp [receive_webhook, authCheck, hbeq, verify_sign_self, hparse,
    scenarioPayload, jgetD, jget, hpub, taskEvents]

/-- C5 witness: the scenario at secret `"k"`, an always-succeeding publisher
and a parser returning the scenario payload. -/
theorem claim_C5_witness :
    receive_webhook (some "k") (some (fun _ _ => Except.ok ()))
        (fun _ => some scenarioPayload)
        ⟨[], some (signSignature [] "k"), none⟩ =
      (WebhookOutcome.ok [("status", "received")],
       [⟨"task.created", scenarioPayload⟩]) :=
  claim_C5 "k" (fun _ _ => Except.ok ()) (fun _ => some scenarioPayload) []
    none (by decide) rfl rfl

/-- C1 (amended): when a webhook passes the signature gate and JSON parsing,
its event is routable and a publisher is attached, a raising `publish` makes
the exception escape `receive_webhook` (FastAPI then reports a server error)
instead of the success response, and no message is recorded as published;
the success response is produced only when `publish` returns or is
skipped. -/
theorem claim_C1 (secret : Option String)
    (p : String → JsonObj → Except String Unit)
    (parse : List Nat → Option JsonObj) (req : WebhookRequest)
    (payload : JsonObj) (rk e : String)
    (hauth : authCheck secret req.xSignature req.rawBody = none)
    (hparse : parse req.rawBody = some payload)
    (hev : jgetD payload "event" (Json.str (headerOr req.xEvent)) = Json.str rk)
    (hrk : taskEvents.contains rk = true)
    (hpub : p rk payload = Except.error e) :
    receive_webhook secret (some p) parse req = (WebhookOutcome.exn e, []) := by
  have hmem : rk ∈ taskEvents := by
    simpa using hrk
  simp [receive_webhook, hauth, hparse, hev, hmem, hpub]

/-- C1 witness: a down broker (`publish` raising) behind an app without a
secret. -/
theorem claim_C1_witness :
    receive_webhook none (some (fun _ _ => Except.error "down"))
        (fun _ => some [("event", Json.str "task.created")]) ⟨[], none, none⟩ =
      (WebhookOutcome.exn "down", []) :=
  claim_C1 none (fun _ _ => Except.error "down")
    (fun _ => some [("event", Json.str "task.created")]) ⟨[], none, none⟩
    [("event", Json.str "task.created")] "task.created" "down"
    rfl rfl (by simp [jgetD, jget]) (by decide) rfl

/-- C1 counterexample: a request that passes signature verification and
parsing, carries a routable event and meets a publisher whose `publish`
raises; the handler outcome is the propagated exception, not the success
response the claim promises. -/
theorem claim_C1_counterexample :
    receive_webhook (some "k") (some (fun _ _ => Except.error "boom"))
        (fun _ => some [("event", Json.str "task.created")])
        ⟨[], some (signSignature [] "k"), none⟩ =
      (WebhookOutcome.exn "boom", [])
  ∧ WebhookOutcome.exn "boom" ≠
      WebhookOutcome.ok [("status", "received")] := by
  constructor
  · simp [receive_webhook, authCheck, verify_sign_self, jgetD, jget, taskEvents]
  · intro h
    exact WebhookOutcome.noConfusion h

/-- Any event that does not compare equal to the string `task.created` makes
`process_message` return normally with no effects at all. -/
theorem pm_not_created (getService : Except String LightTasksService)
    (ewa : Json → Except String String) (event : Json) (d : JsonObj)
    (h : Json.isStr event "task.created" = false) :
    process_message getService ewa event d = Except.ok WorkerEffects.empty := by
  simp [process_message, h]

/-- Python truthiness of `data.get("id") or data.get("task_id")` coincides
with `hasTaskId`. -/
theorem truthy_taskId (d : JsonObj) :
    truthyO (if truthyO (jget d "id") then jget d "id" else jget d "task_id") =
      hasTaskId d := by
  unfold hasTaskId
  cases h : truthyO (jget d "id") <;> simp [h]

/-- Per-message Processing Function invocation count: one exactly when the
event is `task.created`, the payload carries a truthy id and the service
accessor returns, zero otherwise — whatever the Processing Function and the
service calls do afterwards. -/
theorem pm_ewa_len (getService : Except String LightTasksService)
    (ewa : Json → Except String String) (event : Json) (d : JsonObj) :
    pmEwaLen getService ewa event d =
      if Json.isStr event "task.created" && hasTaskId d && exceptOk getService
      then 1 else 0 := by
  cases hstr : Json.isStr event "task.created" with
  | false => simp [pmEwaLen, pm_not_created getService ewa event d hstr, hstr,
      WorkerEffects.empty]
  | true =>
      unfold pmEwaLen process_message
      rw [← truthy_taskId d]
      simp only [hstr, if_true, Bool.true_and]
      set t := if truthyO (jget d "id") then jget d "id" else jget d "task_id"
        with ht
      cases t with
      | none => simp [truthyO]
      | some v =>
          cases hv : jsonTruthy v with
          | false => simp [truthyO, hv]
          | true =>
              simp only [truthyO, hv]
              cases hgs : getService with
              | error e => simp [exceptOk]
              | ok svc =>
                  cases he : ewa (jgetD d "description" (Json.str "")) with
                  | error e => simp [he, exceptOk]
                  | ok task =>
                      cases hc : svc.add_comment v task with
                      | error e => simp [he, hc, exceptOk]
                      | ok u =>
                          cases hm : svc.mark_task_done v with
                          | error e => simp [he, hc, hm, exceptOk]
                          | ok u => simp [he, hc, hm, exceptOk]

/-- Invocation count of a singleton prepended to a sequence. -/
theorem ewaCount_cons (getService : Except String LightTasksService)
    (ewa : Json → Except String String) (m : Json × JsonObj)
    (msgs : List (Json × JsonObj)) :
    ewaCount getService ewa (m :: msgs) =
      pmEwaLen getService ewa m.1 m.2 + ewaCount getService ewa msgs := by
  simp [ewaCount]

/-- A sequence without any `task.created` event never invokes the Processing
Function. -/
theorem ewaCount_zero (getService : Except String LightTasksService)
    (ewa : Json → Except String String) (msgs : List (Json × JsonObj))
    (h : ∀ m ∈ msgs, isCreated m = false) :
    ewaCount getService ewa msgs = 0 := by
  induction msgs with
  | nil => simp [ewaCount]
  | cons m rest ih =>
      have hm : Json.isStr m.1 "task.created" = false := by
        simpa [isCreated] using h m (List.mem_cons_self m rest)
      rw [ewaCount_cons]
      simp [pmEwaLen, pm_not_created getService ewa m.1 m.2 hm,
        WorkerEffects.empty,
        ih (fun x hx => h x (List.mem_cons_of_mem _ hx))]

/-- Invocation count distributes over concatenation. -/
theorem ewaCount_append (getService : Except String LightTasksService)
    (ewa : Json → Except String String)
    (xs ys : List (Json × JsonObj)) :
    ewaCount getService ewa (xs ++ ys) =
      ewaCount getService ewa xs + ewaCount getService ewa ys := by
  simp [ewaCount]

/-- C2 (amended): `process_message` reacts only to `task.created` — every
other event returns normally with no Processing Function invocation and no
task-API call.  The service accessor raises before any invocation when the
`agent_api_key` setting is empty (the configured default).  Each message
triggers at most one invocation: exactly one when the event is
`task.created`, the payload carries a truthy `id` (or fallback `task_id`)
and the service accessor returns; zero otherwise.  Consequently a sequence
with exactly one `task.created` message invokes the Processing Function
exactly once when that message carries a truthy id and the service accessor
returns, and zero times otherwise. -/
theorem claim_C2 :
    (∀ (getService : Except String LightTasksService)
       (ewa : Json → Except String String) (e : String) (d : JsonObj),
        e ≠ "task.created" →
        process_message getService ewa (Json.str e) d =
          Except.ok WorkerEffects.empty)
  ∧ (∀ (svc : LightTasksService),
        LightTasksService.from_settings "" svc =
          Except.error ("AGENT_API_KEY is not set. Create an agent user in " ++
            "Light-Tasks and put the returned API key in the .env file."))
  ∧ (∀ (getService : Except String LightTasksService)
       (ewa : Json → Except String String) (event : Json) (d : JsonObj),
        pmEwaLen getService ewa event d =
          if Json.isStr event "task.created" && hasTaskId d &&
              exceptOk getService
          then 1 else 0)
  ∧ (∀ (getService : Except String LightTasksService)
       (ewa : Json → Except String String)
       (pre : List (Json × JsonObj)) (d : JsonObj)
       (post : List (Json × JsonObj)),
        (∀ m ∈ pre, isCreated m = false) →
        (∀ m ∈ post, isCreated m = false) →
        ewaCount getService ewa
            (pre ++ (Json.str "task.created", d) :: post) =
          if hasTaskId d && exceptOk getService then 1 else 0) := by
  refine ⟨?_, fun svc => rfl, pm_ewa_len, ?_⟩
  · intro getService ewa e d he
    exact pm_not_created getService ewa (Json.str e) d
      (by simp [Json.isStr, he])
  · intro getService ewa pre d post hpre hpost
    rw [ewaCount_append, ewaCount_cons, ewaCount_zero getService ewa pre hpre,
      ewaCount_zero getService ewa post hpost, pm_ewa_len]
    simp [Json.isStr]

/-- C2 counterexample: a sequence with exactly one `task.created` event whose
payload lacks both id fields invokes the Processing Function zero times —
even with a service accessor and collaborators that always return — not the
once the claim asserts. -/
theorem claim_C2_counterexample :
    (List.countP isCreated [((Json.str "task.created" : Json), ([] : JsonObj))] = 1)
  ∧ ewaCount (Except.ok ⟨okC, okM⟩) okE [(Json.str "task.created", [])] = 0 := by
  constructor
  · rfl
  · rfl

/-- C2 witness: a non-created event leaves no effects; a sequence with one
`task.created` message carrying an id invokes the Processing Function
exactly once under a returning service accessor; the same message under the
default empty `agent_api_key` (service construction raising) invokes it zero
times. -/
theorem claim_C2_witness :
    process_message (Except.ok ⟨okC, okM⟩) okE (Json.str "task.moved") [] =
      Except.ok WorkerEffects.empty
  ∧ ewaCount (Except.ok ⟨okC, okM⟩) okE
      [(Json.str "task.moved", []),
       (Json.str "task.created", [("id", Json.str "t1")]),
       (Json.str "task.updated", [])] = 1
  ∧ ewaCount (LightTasksService.from_settings "" ⟨okC, okM⟩) okE
      [(Json.str "task.created", [("id", Json.str "t1")])] = 0 := by
  refine ⟨claim_C2.1 (Except.ok ⟨okC, okM⟩) okE "task.moved" [] (by decide),
    ?_, ?_⟩
  · have h := claim_C2.2.2.2 (Except.ok ⟨okC, okM⟩) okE
      [(Json.str "task.moved", [])]
      [("id", Json.str "t1")] [(Json.str "task.updated", [])]
      (by decide) (by decide)
    simpa [hasTaskId, truthyO, jget, jsonTruthy, exceptOk] using h
  · have h := claim_C2.2.2.2 (LightTasksService.from_settings "" ⟨okC, okM⟩)
      okE [] [("id", Json.str "t1")] []
      (by simp) (by simp)
    simpa [hasTaskId, truthyO, jget, jsonTruthy, exceptOk,
      LightTasksService.from_settings] using h

/-- C7: `signup` runs login, cleanup and register in that order.  A login
exception propagates and nothing further runs; once login succeeds the call
trace is exactly login, then the cleanup calls, then register — whatever
happened during cleanup — and the result is the secret from the register
step, or the register exception propagated.  When the listing succeeds, all
entries are well-formed and every matching delete succeeds, the cleanup loop
deletes exactly the registrations whose callback URL equals the configured
one, with no swallowed exception. -/
theorem claim_C7 :
    (∀ (api : ApiBehavior) (cb e : String),
        api.loginR = Except.error e →
        signup api cb = (Except.error e, [ApiCall.login], false))
  ∧ (∀ (api : ApiBehavior) (cb t : String),
        api.loginR = Except.ok t →
        (signup api cb).2.1 =
          ApiCall.login :: (cleanup_old_webhooks api cb).1 ++ [ApiCall.register]
        ∧ (signup api cb).1 = api.registerR.map Prod.fst)
  ∧ (∀ (del : Json → Except String Unit) (cb : String) (whs : List Json),
        (∀ wh ∈ whs, Json.isObj wh = true) →
        (∀ wh ∈ whs, whMatches cb wh = true →
            ∃ idJ, Json.get? wh "id" = some idJ ∧ del idJ = Except.ok ()) →
        cleanupLoop del cb whs =
          ((whs.filter (fun wh => whMatches cb wh)).map
            (fun wh => ApiCall.deleteWebhook ((Json.get? wh "id").getD Json.null)),
           false)) := by
  refine ⟨?_, ?_, ?_⟩
  · intro api cb e h
    simp [signup, h]
  · intro api cb t h
    rcases hcc : cleanup_old_webhooks api cb with ⟨cc, w⟩
    cases hr : api.registerR with
    | error e => simp [signup, h, hcc, hr, Except.map]
    | ok si => simp [signup, h, hcc, hr, Except.map]
  · intro del cb whs
    induction whs with
    | nil =>
        intro _ _
        simp [cleanupLoop]
    | cons wh rest ih =>
        intro hobj hdel
        have hwh : Json.isObj wh = true := hobj wh (List.mem_cons_self wh rest)
        cases wh with
        | obj o =>
            by_cases hm : whMatches cb (Json.obj o) = true
            · obtain ⟨idJ, hid, hok⟩ :=
                hdel (Json.obj o) (List.mem_cons_self _ rest) hm
              have hid' : jget o "id" = some idJ := by
                simpa [Json.get?] using hid
              have hrest := ih (fun x hx => hobj x (List.mem_cons_of_mem _ hx))
                (fun x hx hxm => hdel x (List.mem_cons_of_mem _ hx) hxm)
              simp [cleanupLoop, hm, hid', hok, hrest, hid]
            · have hm' : whMatches cb (Json.obj o) = false := by
                simpa using hm
              have hrest := ih (fun x hx => hobj x (List.mem_cons_of_mem _ hx))
                (fun x hx hxm => hdel x (List.mem_cons_of_mem _ hx) hxm)
              simp [cleanupLoop, hm', hrest]
        | null => simp [Json.isObj] at hwh
        | bool b => simp [Json.isObj] at hwh
        | num n => simp [Json.isObj] at hwh
        | str s => simp [Json.isObj] at hwh
        | arr xs => simp [Json.isObj] at hwh

/-- The behavior of the Light-Tasks API in the witness scenario: login and
register succeed, the listing returns one matching and one non-matching
registration, deletion succeeds. -/
def apiOk : ApiBehavior :=
  { loginR := Except.ok "tok"
  , listR := Except.ok
      [Json.obj [("url", Json.str "http://me/webhook"), ("id", Json.str "w1")],
       Json.obj [("url", Json.str "http://other/webhook"), ("id", Json.str "w2")]]
  , deleteR := fun _ => Except.ok ()
  , registerR := Except.ok ("sec", "wid") }

/-- The behavior of an API whose login raises. -/
def apiNoLogin : ApiBehavior :=
  { apiOk with loginR := Except.error "denied" }

/-- C7 witness: the three conjuncts at concrete behaviors — a failed login
propagates untouched; a successful login yields the login-cleanup-register
trace and the registered secret; the cleanup loop deletes exactly the
matching registration. -/
theorem claim_C7_witness :
    signup apiNoLogin "http://me/webhook" =
      (Except.error "denied", [ApiCall.login], false)
  ∧ ((signup apiOk "http://me/webhook").2.1 =
      ApiCall.login :: (cleanup_old_webhooks apiOk "http://me/webhook").1 ++
        [ApiCall.register]
    ∧ (signup apiOk "http://me/webhook").1 = apiOk.registerR.map Prod.fst)
  ∧ cleanupLoop apiOk.deleteR "http://me/webhook"
      [Json.obj [("url", Json.str "http://me/webhook"), ("id", Json.str "w1")],
       Json.obj [("url", Json.str "http://other/webhook"), ("id", Json.str "w2")]] =
      ([ApiCall.deleteWebhook (Json.str "w1")], false) := by
  refine ⟨?_, ?_, ?_⟩
  · exact claim_C7.1 apiNoLogin "http://me/webhook" "denied" rfl
  · exact claim_C7.2.1 apiOk "http://me/webhook" "tok" rfl
  · have h := claim_C7.2.2 apiOk.deleteR "http://me/webhook"
      [Json.obj [("url", Json.str "http://me/webhook"), ("id", Json.str "w1")],
       Json.obj [("url", Json.str "http://other/webhook"), ("id", Json.str "w2")]]
      (by
        intro wh hw
        simp only [List.mem_cons, List.not_mem_nil, or_false] at hw
        rcases hw with rfl | rfl <;> rfl)
      (by
        intro wh hw hm
        simp only [List.mem_cons, List.not_mem_nil, or_false] at hw
        rcases hw with rfl | rfl
        · exact ⟨Json.str "w1", rfl, rfl⟩
        · simp [whMatches, Json.get?, jget, Json.isStr] at hm)
    simpa [whMatches, Json.get?, jget, Json.isStr] using h

end AgentNetwork
